import Mathlib

/-!
Verification of the UFLA-RISC processor simulator.

Shallow embedding of the simulator's components (ALU, Flags, Decoder,
ControlUnit, Memoria, Registradores, Processor stages), translated from
the Python source under src/src/simulator/.  Python integers are
embedded as Nat (or Int where the source value can go negative);
Python bitwise masking with `& m` is embedded as `&&&`; fallible
operations (Python raise) return Except String.
-/

namespace UflaRisc

/-! ### ALU (src/src/simulator/alu.py)

Each operation returns (resultado, carry, overflow), as in the source.
-/

def MASK_32_BITS : Nat := 0xFFFFFFFF
def BIT_SINAL : Nat := 0x80000000

/-- `ALU._add`: sum with carry and overflow detection.  The sign of the
result is taken from the unmasked sum, as in the source. -/
def alu_add (a b : Nat) : Nat × Bool × Bool :=
  let resultado := a + b
  let carry := decide (resultado > MASK_32_BITS)
  let sinal_a := a &&& BIT_SINAL
  let sinal_b := b &&& BIT_SINAL
  let sinal_resultado := resultado &&& BIT_SINAL
  let overflow := decide (sinal_a = sinal_b ∧ sinal_a ≠ sinal_resultado)
  (resultado &&& MASK_32_BITS, carry, overflow)

/-- `ALU._sub`: subtraction with borrow and overflow detection.  The
Python source computes `a - b` as a possibly negative arbitrary
precision integer; Python bitwise AND of a negative integer with a
nonnegative mask acts on its two's-complement form, which equals
AND-ing the residue modulo 2^32, so the embedding takes the residue
first. -/
def alu_sub (a b : Nat) : Nat × Bool × Bool :=
  let resultado : Int := (a : Int) - (b : Int)
  let carry := decide (resultado < 0)
  let sinal_a := a &&& BIT_SINAL
  let sinal_b := b &&& BIT_SINAL
  let resultado_32 : Nat := (resultado % 4294967296).toNat
  let sinal_resultado := resultado_32 &&& BIT_SINAL
  let overflow := decide (sinal_a ≠ sinal_b ∧ sinal_a ≠ sinal_resultado)
  (resultado_32, carry, overflow)

/-- `ALU._zero`. -/
def alu_zero (_a _b : Nat) : Nat × Bool × Bool := (0, false, false)

/-- `ALU._xor`. -/
def alu_xor (a b : Nat) : Nat × Bool × Bool := ((a ^^^ b) &&& MASK_32_BITS, false, false)

/-- `ALU._or`. -/
def alu_or (a b : Nat) : Nat × Bool × Bool := ((a ||| b) &&& MASK_32_BITS, false, false)

/-- `ALU._not`: Python `(~a) & mask`; `~a = -(a+1)` on arbitrary
precision integers, and masking takes the residue modulo 2^32. -/
def alu_not (a _b : Nat) : Nat × Bool × Bool :=
  (((-((a : Int) + 1)) % 4294967296).toNat, false, false)

/-- `ALU._and`. -/
def alu_and (a b : Nat) : Nat × Bool × Bool := ((a &&& b) &&& MASK_32_BITS, false, false)

/-- `ALU._sal` (arithmetic shift left). -/
def alu_sal (a b : Nat) : Nat × Bool × Bool :=
  let shift_amount := b &&& 0x1F
  if shift_amount = 0 then (a, false, false)
  else ((a <<< shift_amount) &&& MASK_32_BITS, false, false)

/-- `ALU._sar` (arithmetic shift right, sign filled). -/
def alu_sar (a b : Nat) : Nat × Bool × Bool :=
  let shift_amount := b &&& 0x1F
  if shift_amount = 0 then (a, false, false)
  else
    let resultado := a >>> shift_amount
    let resultado :=
      if (a &&& BIT_SINAL) ≠ 0 then
        resultado ||| ((MASK_32_BITS <<< (32 - shift_amount)) &&& MASK_32_BITS)
      else resultado
    (resultado &&& MASK_32_BITS, false, false)

/-- `ALU._sll` (logical shift left). -/
def alu_sll (a b : Nat) : Nat × Bool × Bool :=
  let shift_amount := b &&& 0x1F
  if shift_amount = 0 then (a, false, false)
  else ((a <<< shift_amount) &&& MASK_32_BITS, false, false)

/-- `ALU._slr` (logical shift right). -/
def alu_slr (a b : Nat) : Nat × Bool × Bool :=
  let shift_amount := b &&& 0x1F
  if shift_amount = 0 then (a, false, false)
  else ((a >>> shift_amount) &&& MASK_32_BITS, false, false)

/-- `ALU._copy`. -/
def alu_copy (a _b : Nat) : Nat × Bool × Bool := (a, false, false)

/-- `ALU.executar`: validates the opcode against the dispatch table
(keys 0x01 to 0x0C), masks both operands to 32 bits, and dispatches. -/
def executar (opcode operando_a operando_b : Nat) : Except String (Nat × Bool × Bool) :=
  let a := operando_a &&& MASK_32_BITS
  let b := operando_b &&& MASK_32_BITS
  match opcode with
  | 0x01 => .ok (alu_add a b)
  | 0x02 => .ok (alu_sub a b)
  | 0x03 => .ok (alu_zero a b)
  | 0x04 => .ok (alu_xor a b)
  | 0x05 => .ok (alu_or a b)
  | 0x06 => .ok (alu_not a b)
  | 0x07 => .ok (alu_and a b)
  | 0x08 => .ok (alu_sal a b)
  | 0x09 => .ok (alu_sar a b)
  | 0x0A => .ok (alu_sll a b)
  | 0x0B => .ok (alu_slr a b)
  | 0x0C => .ok (alu_copy a b)
  | _ => .error "Opcode invalido"

/-! ### Flags (src/src/simulator/flags.py) -/

structure Flags where
  neg : Bool
  zero : Bool
  carry : Bool
  overflow : Bool
deriving DecidableEq

def Flags.init : Flags := ⟨false, false, false, false⟩

def FLAGS_VALIDOS : List String := ["neg", "zero", "carry", "overflow"]

/-- Python `str.lower`, embedded by mapping each character through
`Char.toLower` (the inputs of interest are ASCII). -/
def minusculas (s : String) : String := ⟨s.data.map Char.toLower⟩

/-- `Flags.definir_flag`: lowercases the name, validates it against
`FLAGS_VALIDOS`, then sets the corresponding field. -/
def definir_flag (f : Flags) (nome_flag : String) (valor : Bool) : Except String Flags :=
  let nome := minusculas nome_flag
  if nome ∈ FLAGS_VALIDOS then
    if nome = "neg" then .ok { f with neg := valor }
    else if nome = "zero" then .ok { f with zero := valor }
    else if nome = "carry" then .ok { f with carry := valor }
    else .ok { f with overflow := valor }
  else .error "Nome de flag invalido"

/-- `Flags.obter_flag`: lowercases the name, validates it against
`FLAGS_VALIDOS`, then reads the corresponding field. -/
def obter_flag (f : Flags) (nome_flag : String) : Except String Bool :=
  let nome := minusculas nome_flag
  if nome ∈ FLAGS_VALIDOS then
    if nome = "neg" then .ok f.neg
    else if nome = "zero" then .ok f.zero
    else if nome = "carry" then .ok f.carry
    else .ok f.overflow
  else .error "Nome de flag invalido"

/-- `Flags.atualizar_flags`. -/
def atualizar_flags (_f : Flags) (resultado : Nat) (carry overflow : Bool) : Flags :=
  let resultado_32bits := resultado &&& 0xFFFFFFFF
  { zero := decide (resultado_32bits = 0)
    neg := decide (resultado_32bits &&& 0x80000000 ≠ 0)
    carry := carry
    overflow := overflow }

/-! ### Decoder (src/src/simulator/decoder.py) -/

inductive Tipo where
  | R | I | J | JR | B | HALT
deriving DecidableEq

/-- Decoded instruction record, mirroring the dictionary returned by
`Decoder.decodificar`; fields absent from a format are `none`. -/
structure DecodedInstruction where
  opcode : Nat
  type : Tipo
  ra : Option Nat := none
  rb : Option Nat := none
  rc : Option Nat := none
  immediate : Option Nat := none
  address : Option Nat := none
  offset : Option Int := none
deriving DecidableEq

/-- `Decoder.tipo_instrucao` dictionary: opcode to instruction format. -/
def tipo_instrucao (opcode : Nat) : Option Tipo :=
  match opcode with
  | 0x01 | 0x02 | 0x03 | 0x04 | 0x05 | 0x06
  | 0x07 | 0x08 | 0x09 | 0x0A | 0x0B | 0x0C => some .R
  | 0x0E | 0x0F | 0x10 | 0x11 => some .I
  | 0x12 | 0x16 => some .J
  | 0x13 => some .JR
  | 0x14 | 0x15 => some .B
  | _ => none

/-- `Decoder._decodificar_tipo_r`. -/
def decodificar_tipo_r (instrucao opcode : Nat) : DecodedInstruction :=
  { opcode := opcode
    type := .R
    ra := some ((instrucao &&& 0x00F80000) >>> 19)
    rb := some ((instrucao &&& 0x0007C000) >>> 14)
    rc := some ((instrucao &&& 0x00003E00) >>> 9) }

/-- `Decoder._decodificar_tipo_i`. -/
def decodificar_tipo_i (instrucao opcode : Nat) : DecodedInstruction :=
  { opcode := opcode
    type := .I
    ra := some ((instrucao &&& 0x00F80000) >>> 19)
    immediate := some ((instrucao &&& 0x0007FFF8) >>> 3) }

/-- `Decoder._decodificar_tipo_j`. -/
def decodificar_tipo_j (instrucao opcode : Nat) : DecodedInstruction :=
  { opcode := opcode
    type := .J
    address := some ((instrucao &&& 0x00FFFF00) >>> 8) }

/-- `Decoder._decodificar_tipo_jr`. -/
def decodificar_tipo_jr (instrucao opcode : Nat) : DecodedInstruction :=
  { opcode := opcode
    type := .JR
    rc := some ((instrucao &&& 0x00F80000) >>> 19) }

/-- `Decoder._decodificar_tipo_b`: the 14-bit offset field is
sign-extended; in the source a negative value is produced by OR-ing the
upper mask 0xFFFFC000 and then subtracting 0x100000000 when the result
exceeds 0x7FFFFFFF. -/
def decodificar_tipo_b (instrucao opcode : Nat) : DecodedInstruction :=
  let ra := (instrucao &&& 0x00F80000) >>> 19
  let rb := (instrucao &&& 0x0007C000) >>> 14
  let offset0 := (instrucao &&& 0x00003FFF) >>> 0
  let offset : Int :=
    if offset0 &&& 0x2000 ≠ 0 then
      let ext := offset0 ||| 0xFFFFC000
      if ext > 0x7FFFFFFF then (ext : Int) - 0x100000000 else (ext : Int)
    else (offset0 : Int)
  { opcode := opcode
    type := .B
    ra := some ra
    rb := some rb
    offset := some offset }

/-- `Decoder.decodificar`: masks to 32 bits, recognizes the all-ones
HALT sentinel before any field extraction, then extracts the opcode and
dispatches on the format table. -/
def decodificar (instrucao : Nat) : Except String DecodedInstruction :=
  let instrucao := instrucao &&& 0xFFFFFFFF
  if instrucao = 0xFFFFFFFF then
    .ok { opcode := 0xFFFFFFFF, type := .HALT }
  else
    let opcode := (instrucao &&& 0xFF000000) >>> 24
    match tipo_instrucao opcode with
    | some .R => .ok (decodificar_tipo_r instrucao opcode)
    | some .I => .ok (decodificar_tipo_i instrucao opcode)
    | some .J => .ok (decodificar_tipo_j instrucao opcode)
    | some .JR => .ok (decodificar_tipo_jr instrucao opcode)
    | some .B => .ok (decodificar_tipo_b instrucao opcode)
    | some .HALT => .error "Opcode invalido"
    | none => .error "Opcode invalido"

/-! ### ControlUnit (src/src/simulator/control_unit.py) -/

inductive AluSrc where
  | reg | imm
deriving DecidableEq

inductive PcSrc where
  | inc | jump | branch | halt
deriving DecidableEq

structure ControlSignals where
  alu_op : Option Nat
  reg_write : Bool
  mem_read : Bool
  mem_write : Bool
  mem_to_reg : Bool
  branch : Bool
  jump : Bool
  alu_src : AluSrc
  pc_src : PcSrc
  halt : Bool
deriving DecidableEq

/-- The default (all deactivated) control-signal record. -/
def sinais_padrao : ControlSignals :=
  { alu_op := none
    reg_write := false
    mem_read := false
    mem_write := false
    mem_to_reg := false
    branch := false
    jump := false
    alu_src := .reg
    pc_src := .inc
    halt := false }

/-- `ControlUnit.opcodes_alu`. -/
def opcodes_alu : List Nat :=
  [0x01, 0x02, 0x03, 0x04, 0x05, 0x06, 0x07, 0x08, 0x09, 0x0A, 0x0B, 0x0C]

/-- `ControlUnit.obter_sinais_controle`: dispatches first on the HALT
format, then on the opcode, mirroring the if/elif chain of the source;
an unmatched opcode raises (here: returns an error). -/
def obter_sinais_controle (d : DecodedInstruction) : Except String ControlSignals :=
  if d.type = .HALT then
    .ok { sinais_padrao with halt := true, pc_src := .halt }
  else if d.opcode ∈ opcodes_alu then
    .ok { sinais_padrao with
          alu_op := some d.opcode, reg_write := true, alu_src := .reg, pc_src := .inc }
  else if d.opcode = 0x0E then
    .ok { sinais_padrao with reg_write := true, alu_src := .imm, pc_src := .inc }
  else if d.opcode = 0x0F then
    .ok { sinais_padrao with reg_write := true, alu_src := .imm, pc_src := .inc }
  else if d.opcode = 0x10 then
    .ok { sinais_padrao with
          mem_read := true, reg_write := true, mem_to_reg := true,
          alu_src := .imm, pc_src := .inc }
  else if d.opcode = 0x11 then
    .ok { sinais_padrao with mem_write := true, alu_src := .imm, pc_src := .inc }
  else if d.opcode = 0x12 then
    .ok { sinais_padrao with jump := true, reg_write := true, pc_src := .jump }
  else if d.opcode = 0x13 then
    .ok { sinais_padrao with jump := true, pc_src := .jump }
  else if d.opcode = 0x14 then
    .ok { sinais_padrao with branch := true, alu_src := .reg, pc_src := .branch }
  else if d.opcode = 0x15 then
    .ok { sinais_padrao with branch := true, alu_src := .reg, pc_src := .branch }
  else if d.opcode = 0x16 then
    .ok { sinais_padrao with jump := true, pc_src := .jump }
  else .error "Opcode nao reconhecido"

/-! ### Memoria (src/src/simulator/memory.py) and Registradores
(src/src/simulator/registers.py)

The backing stores are embedded as total functions; the read/write
contracts enforce the 16-bit address range and the 32-register range
exactly as the source does. -/

structure Memoria where
  mem : Nat → Nat

def Memoria.ler (m : Memoria) (endereco : Nat) : Except String Nat :=
  if endereco > 65535 then .error "Endereco fora do range valido"
  else .ok (m.mem endereco)

def Memoria.escrever (m : Memoria) (endereco dado : Nat) : Except String Memoria :=
  if endereco > 65535 then .error "Endereco fora do range valido"
  else .ok ⟨fun e => if e = endereco then dado &&& 0xFFFFFFFF else m.mem e⟩

structure Registradores where
  regs : Nat → Nat

/-- `Registradores.ler`: register 0 always reads as zero. -/
def Registradores.ler (r : Registradores) (num_reg : Nat) : Except String Nat :=
  if num_reg > 31 then .error "Registrador fora do range valido"
  else if num_reg = 0 then .ok 0
  else .ok (r.regs num_reg)

/-- `Registradores.escrever`: writes to register 0 are silently
ignored; stored values are masked to 32 bits. -/
def Registradores.escrever (r : Registradores) (num_reg valor : Nat) :
    Except String Registradores :=
  if num_reg > 31 then .error "Registrador fora do range valido"
  else if num_reg = 0 then .ok r
  else .ok ⟨fun i => if i = num_reg then valor &&& 0xFFFFFFFF else r.regs i⟩

/-! ### Processor (src/src/simulator/processor.py) -/

structure Processor where
  memoria : Memoria
  registradores : Registradores
  flags : Flags
  pc : Nat
  ir : Nat
  halted : Bool
  ciclos : Nat
  instrucoes : Nat

/-- `Processor._stage_if`: fetch the word at PC into IR and advance PC
by one, masked to 16 bits.  Returns the updated state together with
the fetched instruction. -/
def stage_if (s : Processor) : Except String (Processor × Nat) :=
  match s.memoria.ler s.pc with
  | .error e => .error e
  | .ok instrucao =>
      .ok ({ s with ir := instrucao, pc := (s.pc + 1) &&& 0xFFFF }, instrucao)

/-- `Processor._stage_id`: decode IR, generate control signals, and read
the source operands demanded by the instruction format. -/
def stage_id (s : Processor) :
    Except String (DecodedInstruction × ControlSignals × Option Nat × Option Nat) :=
  match decodificar s.ir with
  | .error e => .error e
  | .ok decoded =>
    match obter_sinais_controle decoded with
    | .error e => .error e
    | .ok sinais =>
      match decoded.type with
      | .R =>
        match decoded.rb, decoded.rc with
        | some rb, some rc =>
          match s.registradores.ler rb with
          | .error e => .error e
          | .ok va =>
            match s.registradores.ler rc with
            | .error e => .error e
            | .ok vb => .ok (decoded, sinais, some va, some vb)
        | some rb, none =>
          match s.registradores.ler rb with
          | .error e => .error e
          | .ok va => .ok (decoded, sinais, some va, none)
        | none, some rc =>
          match s.registradores.ler rc with
          | .error e => .error e
          | .ok vb => .ok (decoded, sinais, none, some vb)
        | none, none => .ok (decoded, sinais, none, none)
      | .I =>
        match decoded.ra with
        | some ra =>
          match s.registradores.ler ra with
          | .error e => .error e
          | .ok va => .ok (decoded, sinais, some va, none)
        | none => .ok (decoded, sinais, none, none)
      | .B =>
        match decoded.ra, decoded.rb with
        | some ra, some rb =>
          match s.registradores.ler ra with
          | .error e => .error e
          | .ok va =>
            match s.registradores.ler rb with
            | .error e => .error e
            | .ok vb => .ok (decoded, sinais, some va, some vb)
        | some ra, none =>
          match s.registradores.ler ra with
          | .error e => .error e
          | .ok va => .ok (decoded, sinais, some va, none)
        | none, some rb =>
          match s.registradores.ler rb with
          | .error e => .error e
          | .ok vb => .ok (decoded, sinais, none, some vb)
        | none, none => .ok (decoded, sinais, none, none)
      | .JR =>
        match decoded.rc with
        | some rc =>
          match s.registradores.ler rc with
          | .error e => .error e
          | .ok va => .ok (decoded, sinais, some va, none)
        | none => .ok (decoded, sinais, none, none)
      | .J => .ok (decoded, sinais, none, none)
      | .HALT => .ok (decoded, sinais, none, none)

/-- `Processor._stage_ex_mem`: runs the ALU when `alu_op` is set
(updating the flags), performs load/store with the effective address
taken directly from the immediate masked to 16 bits, handles LOADH and
LOADL, resolves branches, and performs jumps.  Returns the updated
state together with the step result (None when no value is produced). -/
def stage_ex_mem (s : Processor) (decoded : DecodedInstruction)
    (sinais : ControlSignals) (operando_a operando_b : Option Nat) :
    Except String (Processor × Option Nat) :=
  -- 1. ALU execution
  let passo1 : Except String (Processor × Option Nat) :=
    match sinais.alu_op with
    | some alu_op =>
      let op_a := operando_a.getD 0
      let op_b := operando_b.getD 0
      match executar alu_op op_a op_b with
      | .error e => .error e
      | .ok (res, carry, overflow) =>
          .ok ({ s with flags := atualizar_flags s.flags res carry overflow }, some res)
    | none => .ok (s, none)
  match passo1 with
  | .error e => .error e
  | .ok (s, resultado) =>
    -- 2. Load/Store
    let passo2 : Except String (Processor × Option Nat) :=
      if sinais.mem_read || sinais.mem_write then
        let imediato := decoded.immediate.getD 0
        let endereco_memoria := imediato &&& 0xFFFF
        if sinais.mem_read then
          match s.memoria.ler endereco_memoria with
          | .error e => .error e
          | .ok v => .ok (s, some v)
        else
          match decoded.ra with
          | some ra =>
            match s.registradores.ler ra with
            | .error e => .error e
            | .ok valor_escrever =>
              match s.memoria.escrever endereco_memoria valor_escrever with
              | .error e => .error e
              | .ok mem => .ok ({ s with memoria := mem }, resultado)
          | none => .ok (s, resultado)
      else .ok (s, resultado)
    match passo2 with
    | .error e => .error e
    | .ok (s, resultado) =>
      -- 3. LOADH / LOADL
      let resultado : Option Nat :=
        if decoded.opcode = 0x0E then
          let imediato := decoded.immediate.getD 0
          let valor_atual := operando_a.getD 0
          some (((imediato &&& 0xFFFF) <<< 16) ||| (valor_atual &&& 0x0000FFFF))
        else if decoded.opcode = 0x0F then
          let imediato := decoded.immediate.getD 0
          let valor_atual := operando_a.getD 0
          some ((valor_atual &&& 0xFFFF0000) ||| (imediato &&& 0xFFFF))
        else resultado
      -- 4. Branches (JEQ / JNE)
      let s :=
        if sinais.branch then
          let op_a := operando_a.getD 0
          let op_b := operando_b.getD 0
          let branch_tomado :=
            if decoded.opcode = 0x14 then decide (op_a = op_b)
            else if decoded.opcode = 0x15 then decide (op_a ≠ op_b)
            else false
          if branch_tomado then
            -- Python masks the possibly negative sum with & 0xFFFF,
            -- which takes the residue modulo 2^16
            { s with pc := (((s.pc : Int) + decoded.offset.getD 0) % 65536).toNat }
          else s
        else s
      -- 5. Jumps (JAL / JR / J)
      if sinais.jump then
        if decoded.opcode = 0x13 then
          let endereco_jump := (operando_a.getD 0) &&& 0xFFFF
          .ok ({ s with pc := endereco_jump &&& 0xFFFF }, resultado)
        else if decoded.opcode = 0x12 then
          let endereco_jump := decoded.address.getD 0
          .ok ({ s with pc := endereco_jump &&& 0xFFFF }, some s.pc)
        else if decoded.opcode = 0x16 then
          let endereco_jump := decoded.address.getD 0
          .ok ({ s with pc := endereco_jump &&& 0xFFFF }, resultado)
        else .ok (s, resultado)
      else .ok (s, resultado)

/-- Modelled from the spec: the source's write-back phase is part of the
unimplemented `Processor.passo` body, so this follows section 4.5 step 4
of the specification — if `reg_write` is set, the step's result is
stored into register 31 for JAL and into `ra` otherwise. -/
def stage_wb (s : Processor) (decoded : DecodedInstruction)
    (sinais : ControlSignals) (resultado : Option Nat) : Except String Processor :=
  if sinais.reg_write then
    match resultado with
    | some v =>
      let destino := if decoded.opcode = 0x12 then 31 else decoded.ra.getD 0
      match s.registradores.escrever destino v with
      | .error e => .error e
      | .ok regs => .ok { s with registradores := regs }
    | none => .ok s
  else .ok s

/-- Modelled from the spec: the source's `Processor.passo` body is an
unimplemented TODO stub, so this follows sections 4.5 and 8 of the
specification — fetch, decode, execute/memory and write-back in
sequence (using the implemented stage helpers above), counters
incremented per step; on the HALT signal the processor transitions to
halted with PC restored to its pre-fetch value (the spec requires PC,
registers and memory unchanged from before the fetch of HALT), and a
halted processor executes no further steps until reset. -/
def passo (s : Processor) : Except String Processor :=
  if s.halted then .ok s
  else
    (stage_if s).bind fun r1 =>
      (stage_id r1.1).bind fun r2 =>
        (stage_ex_mem r1.1 r2.1 r2.2.1 r2.2.2.1 r2.2.2.2).bind fun r3 =>
          (stage_wb r3.1 r2.1 r2.2.1 r3.2).bind fun s3 =>
            let s4 := { s3 with ciclos := s3.ciclos + 1, instrucoes := s3.instrucoes + 1 }
            if r2.2.1.halt then .ok { s4 with halted := true, pc := s.pc }
            else .ok s4

/-! ### Helper lemmas -/

lemma and_mask32 (x : Nat) : x &&& 0xFFFFFFFF = x % 2 ^ 32 := by
  simpa using Nat.and_pow_two_sub_one_eq_mod x 32

lemma and_mask31 (x : Nat) : x &&& 0x1F = x % 32 := by
  simpa using Nat.and_pow_two_sub_one_eq_mod x 5

lemma sign_bit_iff (x y : Nat) :
    (x &&& 0x80000000 = y &&& 0x80000000) ↔ (x.testBit 31 = y.testBit 31) := by
  have hx := Nat.and_two_pow x 31
  have hy := Nat.and_two_pow y 31
  norm_num at hx hy
  rw [hx, hy]
  cases x.testBit 31 <;> cases y.testBit 31 <;> simp

/-! ### C9: register 0 is invariant -/

/-- C9: register index 0 is invariant under the register file's
operations: writing any value to register 0 is a no-op, and reading
register 0 always returns 0. -/
theorem registrador_zero_invariante (r : Registradores) (v : Nat) :
    Registradores.escrever r 0 v = .ok r ∧ Registradores.ler r 0 = .ok 0 :=
  ⟨rfl, rfl⟩

/-! ### C2: indexed flag get/set -/

/-- C2 counterexample: the claim says the name "negative" is one of the
four accepted flag names, but both the indexed get and the indexed set
reject it with the unknown-flag error (the code's valid set uses "neg"). -/
theorem flag_negative_rejeitado :
    obter_flag Flags.init "negative" = .error "Nome de flag invalido" ∧
    definir_flag Flags.init "negative" true = .error "Nome de flag invalido" :=
  ⟨rfl, rfl⟩

/-- C2 (amended): indexed get and set of a status flag succeed exactly
for the name strings whose lowercased form lies in the code's valid set
{neg, zero, carry, overflow}; for every other name string both
operations fail with the unknown-flag error (and, the operations being
pure, no flag is modified on failure). -/
theorem flags_get_set_exatos (f : Flags) (nome : String) (v : Bool) :
    (minusculas nome ∈ FLAGS_VALIDOS ↔ ∃ g, definir_flag f nome v = .ok g) ∧
    (minusculas nome ∈ FLAGS_VALIDOS ↔ ∃ b, obter_flag f nome = .ok b) ∧
    (minusculas nome ∉ FLAGS_VALIDOS ↔
      definir_flag f nome v = .error "Nome de flag invalido") ∧
    (minusculas nome ∉ FLAGS_VALIDOS ↔
      obter_flag f nome = .error "Nome de flag invalido") := by
  unfold definir_flag obter_flag
  by_cases h : minusculas nome ∈ FLAGS_VALIDOS
  · simp only [h, if_pos, iff_true, not_true_eq_false, false_iff]
    refine ⟨?_, ?_, ?_, ?_⟩ <;> split_ifs <;> simp
  · simp [h]

/-! ### C6: shift amount is taken modulo 32 -/

/-- C6: for each of the four shift operations the shift amount used is
b modulo 32 (the low 5 bits of b), so shifting by 32 equals shifting by
0 and shifting by 33 equals shifting by 1, and a shift amount of 0
returns the first operand unchanged. -/
theorem shift_amount_modulo_32 (a b : Nat) :
    (alu_sal a b = alu_sal a (b % 32) ∧ alu_sal a 0 = (a, false, false) ∧
      alu_sal a 32 = alu_sal a 0 ∧ alu_sal a 33 = alu_sal a 1) ∧
    (alu_sll a b = alu_sll a (b % 32) ∧ alu_sll a 0 = (a, false, false) ∧
      alu_sll a 32 = alu_sll a 0 ∧ alu_sll a 33 = alu_sll a 1) ∧
    (alu_sar a b = alu_sar a (b % 32) ∧ alu_sar a 0 = (a, false, false) ∧
      alu_sar a 32 = alu_sar a 0 ∧ alu_sar a 33 = alu_sar a 1) ∧
    (alu_slr a b = alu_slr a (b % 32) ∧ alu_slr a 0 = (a, false, false) ∧
      alu_slr a 32 = alu_slr a 0 ∧ alu_slr a 33 = alu_slr a 1) := by
  have hmod : (b % 32) % 32 = b % 32 := by omega
  refine ⟨⟨?_, rfl, rfl, rfl⟩, ⟨?_, rfl, rfl, rfl⟩, ⟨?_, rfl, rfl, rfl⟩,
    ⟨?_, rfl, rfl, rfl⟩⟩ <;>
    simp only [alu_sal, alu_sll, alu_sar, alu_slr, and_mask31, hmod]

/-! ### C7: branch offset sign extension -/

/-- C7: the B-format decoder sign-extends the 14-bit offset field — if
bit 13 of the field is set, the returned offset is the negative value
obtained by extending the field to 32-bit two's complement (that is,
field − 2^14); in particular the all-ones field decodes to −1. -/
theorem offset_branch_sinal_estendido (instrucao opcode : Nat)
    (h : (instrucao &&& 0x3FFF) &&& 0x2000 ≠ 0) :
    ((decodificar_tipo_b instrucao opcode).offset =
        some (((instrucao &&& 0x3FFF : Nat) : Int) - 2 ^ 14) ∧
      ((instrucao &&& 0x3FFF : Nat) : Int) - 2 ^ 14 < 0) ∧
    (decodificar_tipo_b 0x3FFF opcode).offset = some (-1) := by
  have hlt : instrucao &&& 0x3FFF < 2 ^ 14 := by
    have := Nat.and_le_right (n := instrucao) (m := 0x3FFF)
    omega
  have hor : (instrucao &&& 0x3FFF) ||| 0xFFFFC000 =
      0xFFFFC000 + (instrucao &&& 0x3FFF) := by
    have hm := Nat.mul_add_lt_is_or (b := instrucao &&& 0x3FFF) (i := 14) hlt 0x3FFFF
    rw [Nat.lor_comm]
    norm_num at hm ⊢
    omega
  refine ⟨⟨?_, by push_cast; omega⟩, rfl⟩
  simp only [decodificar_tipo_b, Nat.shiftRight_zero]
  rw [if_pos h, hor]
  rw [if_pos (show (2147483647 : Nat) < 4294950912 + (instrucao &&& 16383) by omega)]
  simp only [Option.some.injEq]
  push_cast
  omega

/-- C7 witness: the theorem applied at the all-ones offset field,
discharging the sign-bit hypothesis. -/
theorem offset_branch_sinal_estendido_witness :
    (((decodificar_tipo_b 0x3FFF 0x14).offset =
        some (((0x3FFF &&& 0x3FFF : Nat) : Int) - 2 ^ 14) ∧
      ((0x3FFF &&& 0x3FFF : Nat) : Int) - 2 ^ 14 < 0) ∧
    (decodificar_tipo_b 0x3FFF 0x14).offset = some (-1)) :=
  offset_branch_sinal_estendido 0x3FFF 0x14 (by decide)

/-! ### C10: only ADD and SUB report carry/overflow -/

lemma alu_zero_flags (a b : Nat) : (alu_zero a b).2 = (false, false) := rfl

lemma alu_xor_flags (a b : Nat) : (alu_xor a b).2 = (false, false) := rfl

lemma alu_or_flags (a b : Nat) : (alu_or a b).2 = (false, false) := rfl

lemma alu_not_flags (a b : Nat) : (alu_not a b).2 = (false, false) := rfl

lemma alu_and_flags (a b : Nat) : (alu_and a b).2 = (false, false) := rfl

lemma alu_copy_flags (a b : Nat) : (alu_copy a b).2 = (false, false) := rfl

lemma alu_sal_flags (a b : Nat) : (alu_sal a b).2 = (false, false) := by
  simp only [alu_sal]; split <;> rfl

lemma alu_sar_flags (a b : Nat) : (alu_sar a b).2 = (false, false) := by
  simp only [alu_sar]; split <;> rfl

lemma alu_sll_flags (a b : Nat) : (alu_sll a b).2 = (false, false) := by
  simp only [alu_sll]; split <;> rfl

lemma alu_slr_flags (a b : Nat) : (alu_slr a b).2 = (false, false) := by
  simp only [alu_slr]; split <;> rfl

/-- C10: every ALU operation other than ADD (0x01) and SUB (0x02)
returns carry = false and overflow = false; only ADD and SUB can ever
report a true carry or overflow indicator. -/
theorem apenas_add_sub_indicadores (opcode a b r : Nat) (c o : Bool)
    (hexec : executar opcode a b = .ok (r, c, o))
    (h1 : opcode ≠ 0x01) (h2 : opcode ≠ 0x02) :
    c = false ∧ o = false := by
  unfold executar at hexec
  split at hexec <;>
    first
    | omega
    | exact Except.noConfusion hexec
    | (injection hexec with h3
       have h4 := congrArg Prod.snd h3
       simp only [alu_zero_flags, alu_xor_flags, alu_or_flags, alu_not_flags,
         alu_and_flags, alu_sal_flags, alu_sar_flags, alu_sll_flags,
         alu_slr_flags, alu_copy_flags, Prod.mk.injEq] at h4
       exact ⟨h4.1.symm, h4.2.symm⟩)

/-- C10 witness at a concrete input (XOR, opcode 0x04). -/
theorem apenas_add_sub_indicadores_witness : false = false ∧ false = false :=
  apenas_add_sub_indicadores 0x04 6 3 5 false false rfl
    (by decide) (by decide)

/-! ### C4: ALU ADD -/

/-- C4: for 32-bit operands, ADD returns (a+b) mod 2^32, carry set iff
the unmasked sum exceeds 2^32 − 1, and overflow set iff a and b share a
sign bit which differs from the result's; in particular
ADD(0x7FFFFFFF, 1) = (0x80000000, false, true). -/
theorem alu_add_correto :
    (∀ a b : Nat, a < 2 ^ 32 → b < 2 ^ 32 →
        executar 0x01 a b =
          .ok ((a + b) % 2 ^ 32,
            decide (a + b > 2 ^ 32 - 1),
            decide (a.testBit 31 = b.testBit 31 ∧
              ((a + b) % 2 ^ 32).testBit 31 ≠ a.testBit 31))) ∧
    executar 0x01 0x7FFFFFFF 1 = .ok (0x80000000, false, true) := by
  constructor
  · intro a b ha hb
    have hma : a &&& MASK_32_BITS = a := by
      unfold MASK_32_BITS
      rw [and_mask32]; exact Nat.mod_eq_of_lt ha
    have hmb : b &&& MASK_32_BITS = b := by
      unfold MASK_32_BITS
      rw [and_mask32]; exact Nat.mod_eq_of_lt hb
    have hexe : executar 0x01 a b =
        .ok (alu_add (a &&& MASK_32_BITS) (b &&& MASK_32_BITS)) := rfl
    rw [hexe, hma, hmb]
    have h3 : ((a + b) % 2 ^ 32).testBit 31 = (a + b).testBit 31 := by
      rw [Nat.testBit_mod_two_pow]
      norm_num
    simp only [alu_add, MASK_32_BITS, BIT_SINAL, Except.ok.injEq, Prod.mk.injEq,
      ne_eq, decide_eq_decide, h3]
    refine ⟨?_, ?_, ?_⟩
    · rw [and_mask32]
    · norm_num
    · rw [sign_bit_iff a b, sign_bit_iff a (a + b)]
      constructor <;> rintro ⟨u, w⟩ <;> exact ⟨u, fun hh => w hh.symm⟩
  · rfl

/-- C4 witness at a concrete input, discharging the 32-bit bounds. -/
theorem alu_add_correto_witness :
    executar 0x01 0x7FFFFFFF 1 =
      .ok ((0x7FFFFFFF + 1) % 2 ^ 32,
        decide (0x7FFFFFFF + 1 > 2 ^ 32 - 1),
        decide ((0x7FFFFFFF : Nat).testBit 31 = (1 : Nat).testBit 31 ∧
          (((0x7FFFFFFF : Nat) + 1) % 2 ^ 32).testBit 31 ≠
            (0x7FFFFFFF : Nat).testBit 31)) :=
  alu_add_correto.1 0x7FFFFFFF 1 (by norm_num) (by norm_num)

/-! ### C5: ALU SUB -/

/-- C5: for 32-bit operands, SUB returns (a−b) mod 2^32, borrow set iff
the unmasked difference a−b is negative, and overflow set iff a and b
have different sign bits and the result's sign bit differs from a's; in
particular SUB(0, 1) = (0xFFFFFFFF, true, false). -/
theorem alu_sub_correto :
    (∀ a b : Nat, a < 2 ^ 32 → b < 2 ^ 32 →
        executar 0x02 a b =
          .ok (((((a : Int) - (b : Int)) % 2 ^ 32).toNat,
            decide ((a : Int) - (b : Int) < 0),
            decide (a.testBit 31 ≠ b.testBit 31 ∧
              ((((a : Int) - (b : Int)) % 2 ^ 32).toNat).testBit 31 ≠
                a.testBit 31)))) ∧
    executar 0x02 0 1 = .ok (0xFFFFFFFF, true, false) := by
  constructor
  · intro a b ha hb
    have hma : a &&& MASK_32_BITS = a := by
      unfold MASK_32_BITS
      rw [and_mask32]; exact Nat.mod_eq_of_lt ha
    have hmb : b &&& MASK_32_BITS = b := by
      unfold MASK_32_BITS
      rw [and_mask32]; exact Nat.mod_eq_of_lt hb
    have hexe : executar 0x02 a b =
        .ok (alu_sub (a &&& MASK_32_BITS) (b &&& MASK_32_BITS)) := rfl
    rw [hexe, hma, hmb]
    have hpow : ((2 : Int) ^ 32) = 4294967296 := by norm_num
    simp only [alu_sub, MASK_32_BITS, BIT_SINAL, Except.ok.injEq, Prod.mk.injEq,
      ne_eq, decide_eq_decide, hpow]
    refine ⟨trivial, trivial, ?_⟩
    rw [sign_bit_iff a b,
      sign_bit_iff a ((((a : Int) - (b : Int)) % 4294967296).toNat)]
    constructor <;> rintro ⟨u, w⟩ <;> exact ⟨u, fun hh => w hh.symm⟩
  · rfl

/-- C5 witness at a concrete input, discharging the 32-bit bounds. -/
theorem alu_sub_correto_witness :
    executar 0x02 0 1 =
      .ok (((((0 : Nat) : Int) - ((1 : Nat) : Int)) % 2 ^ 32).toNat,
        decide (((0 : Nat) : Int) - ((1 : Nat) : Int) < 0),
        decide ((0 : Nat).testBit 31 ≠ (1 : Nat).testBit 31 ∧
          (((((0 : Nat) : Int) - ((1 : Nat) : Int)) % 2 ^ 32).toNat).testBit 31 ≠
            (0 : Nat).testBit 31)) :=
  alu_sub_correto.1 0 1 (by norm_num) (by norm_num)

/-! ### C8: control-signal table -/

/-- Modelled from the spec's words (section 4.3 table): the tabulated
control-signal record per opcode group, written independently of
`obter_sinais_controle` for a refinement comparison.  Rows: ALU ops;
LOADH/LOADL; LW; SW; JAL; JR; J; JEQ/JNE; HALT; anything else is the
opcode-not-recognized failure. -/
def sinais_tabelados (d : DecodedInstruction) : Except String ControlSignals :=
  if d.type = .HALT then
    .ok { alu_op := none, reg_write := false, mem_read := false, mem_write := false,
          mem_to_reg := false, branch := false, jump := false, alu_src := .reg,
          pc_src := .halt, halt := true }
  else if d.opcode ∈ opcodes_alu then
    .ok { alu_op := some d.opcode, reg_write := true, mem_read := false,
          mem_write := false, mem_to_reg := false, branch := false, jump := false,
          alu_src := .reg, pc_src := .inc, halt := false }
  else if d.opcode = 0x0E ∨ d.opcode = 0x0F then
    .ok { alu_op := none, reg_write := true, mem_read := false, mem_write := false,
          mem_to_reg := false, branch := false, jump := false, alu_src := .imm,
          pc_src := .inc, halt := false }
  else if d.opcode = 0x10 then
    .ok { alu_op := none, reg_write := true, mem_read := true, mem_write := false,
          mem_to_reg := true, branch := false, jump := false, alu_src := .imm,
          pc_src := .inc, halt := false }
  else if d.opcode = 0x11 then
    .ok { alu_op := none, reg_write := false, mem_read := false, mem_write := true,
          mem_to_reg := false, branch := false, jump := false, alu_src := .imm,
          pc_src := .inc, halt := false }
  else if d.opcode = 0x12 then
    .ok { alu_op := none, reg_write := true, mem_read := false, mem_write := false,
          mem_to_reg := false, branch := false, jump := true, alu_src := .reg,
          pc_src := .jump, halt := false }
  else if d.opcode = 0x13 then
    .ok { alu_op := none, reg_write := false, mem_read := false, mem_write := false,
          mem_to_reg := false, branch := false, jump := true, alu_src := .reg,
          pc_src := .jump, halt := false }
  else if d.opcode = 0x16 then
    .ok { alu_op := none, reg_write := false, mem_read := false, mem_write := false,
          mem_to_reg := false, branch := false, jump := true, alu_src := .reg,
          pc_src := .jump, halt := false }
  else if d.opcode = 0x14 ∨ d.opcode = 0x15 then
    .ok { alu_op := none, reg_write := false, mem_read := false, mem_write := false,
          mem_to_reg := false, branch := true, jump := false, alu_src := .reg,
          pc_src := .branch, halt := false }
  else .error "Opcode nao reconhecido"

/-- C8: for every decoded instruction, the ControlUnit returns exactly
the control-signal record tabulated for its opcode group, and fails
with the opcode-not-recognized error outside the tabulated groups. -/
theorem sinais_controle_tabelados (d : DecodedInstruction) :
    obter_sinais_controle d = sinais_tabelados d := by
  by_cases ht : d.type = .HALT
  · simp [obter_sinais_controle, sinais_tabelados, sinais_padrao, ht]
  · by_cases h1 : d.opcode ∈ opcodes_alu
    · simp [obter_sinais_controle, sinais_tabelados, sinais_padrao, ht, h1]
    · by_cases h2 : d.opcode = 0x0E
      · simp [obter_sinais_controle, sinais_tabelados, sinais_padrao, ht, h1, h2]
      · by_cases h3 : d.opcode = 0x0F
        · simp [obter_sinais_controle, sinais_tabelados, sinais_padrao, ht, h1, h2, h3]
        · by_cases h4 : d.opcode = 0x10
          · simp [obter_sinais_controle, sinais_tabelados, sinais_padrao,
              ht, h1, h2, h3, h4]
          · by_cases h5 : d.opcode = 0x11
            · simp [obter_sinais_controle, sinais_tabelados, sinais_padrao,
                ht, h1, h2, h3, h4, h5]
            · by_cases h6 : d.opcode = 0x12
              · simp [obter_sinais_controle, sinais_tabelados, sinais_padrao,
                  ht, h1, h2, h3, h4, h5, h6]
              · by_cases h7 : d.opcode = 0x13
                · simp [obter_sinais_controle, sinais_tabelados, sinais_padrao,
                    ht, h1, h2, h3, h4, h5, h6, h7]
                · by_cases h8 : d.opcode = 0x14
                  · simp [obter_sinais_controle, sinais_tabelados, sinais_padrao,
                      ht, h1, h2, h3, h4, h5, h6, h7, h8]
                  · by_cases h9 : d.opcode = 0x15
                    · simp [obter_sinais_controle, sinais_tabelados, sinais_padrao,
                        ht, h1, h2, h3, h4, h5, h6, h7, h8, h9]
                    · by_cases h10 : d.opcode = 0x16
                      · simp [obter_sinais_controle, sinais_tabelados, sinais_padrao,
                          ht, h1, h2, h3, h4, h5, h6, h7, h8, h9, h10]
                      · simp [obter_sinais_controle, sinais_tabelados, sinais_padrao,
                          ht, h1, h2, h3, h4, h5, h6, h7, h8, h9, h10]

/-! ### C3: LW/SW effective address -/

/-- C3: in the execute/memory stage the effective address for LW
(0x10) and SW (0x11) is the decoded immediate masked to 16 bits, with
no base-register value added; LW produces the word read at that
address as the step's result, and SW writes the value of register ra
to that address. -/
theorem lw_sw_endereco_efetivo :
    (∀ (s : Processor) (d : DecodedInstruction) (cs : ControlSignals)
        (oa ob : Option Nat),
        d.type ≠ .HALT → d.opcode = 0x10 →
        obter_sinais_controle d = .ok cs →
        stage_ex_mem s d cs oa ob =
          .ok (s, some (s.memoria.mem ((d.immediate.getD 0) &&& 0xFFFF)))) ∧
    (∀ (s : Processor) (d : DecodedInstruction) (cs : ControlSignals)
        (oa ob : Option Nat) (ra v : Nat),
        d.type ≠ .HALT → d.opcode = 0x11 → d.ra = some ra →
        obter_sinais_controle d = .ok cs →
        s.registradores.ler ra = .ok v →
        stage_ex_mem s d cs oa ob =
          .ok ({ s with memoria :=
                  ⟨fun e => if e = (d.immediate.getD 0) &&& 0xFFFF
                            then v &&& 0xFFFFFFFF else s.memoria.mem e⟩ },
            none)) := by
  constructor
  · intro s d cs oa ob ht hop hcs
    simp [obter_sinais_controle, sinais_padrao, ht, hop, opcodes_alu] at hcs
    subst hcs
    have hlt : ¬(d.immediate.getD 0 &&& 0xFFFF > 65535) := by
      have := Nat.and_le_right (n := d.immediate.getD 0) (m := 0xFFFF)
      omega
    simp [stage_ex_mem, Memoria.ler, hlt, hop]
  · intro s d cs oa ob ra v ht hop hra hcs hv
    simp [obter_sinais_controle, sinais_padrao, ht, hop, opcodes_alu] at hcs
    subst hcs
    have hlt : ¬(d.immediate.getD 0 &&& 0xFFFF > 65535) := by
      have := Nat.and_le_right (n := d.immediate.getD 0) (m := 0xFFFF)
      omega
    simp [stage_ex_mem, Memoria.escrever, hlt, hop, hra, hv]

/-- Concrete decoded LW instruction used by the C3 witness. -/
def instr_lw_exemplo : DecodedInstruction :=
  { opcode := 0x10, type := .I, ra := some 1, immediate := some 3 }

/-- Concrete decoded SW instruction used by the C3 witness. -/
def instr_sw_exemplo : DecodedInstruction :=
  { opcode := 0x11, type := .I, ra := some 2, immediate := some 5 }

/-- Concrete processor state used by the C3 and C1 witnesses. -/
def proc_exemplo : Processor :=
  { memoria := ⟨fun _ => 7⟩
    registradores := ⟨fun _ => 9⟩
    flags := Flags.init
    pc := 0
    ir := 0
    halted := false
    ciclos := 0
    instrucoes := 0 }

/-- C3 witness: the LW and SW parts applied at concrete inputs,
discharging every hypothesis. -/
theorem lw_sw_endereco_efetivo_witness :
    stage_ex_mem proc_exemplo instr_lw_exemplo
        { sinais_padrao with
          mem_read := true
          reg_write := true
          mem_to_reg := true
          alu_src := .imm
          pc_src := .inc }
        none none =
      .ok (proc_exemplo,
        some (proc_exemplo.memoria.mem
          ((instr_lw_exemplo.immediate.getD 0) &&& 0xFFFF))) ∧
    stage_ex_mem proc_exemplo instr_sw_exemplo
        { sinais_padrao with
          mem_write := true
          alu_src := .imm
          pc_src := .inc }
        none none =
      .ok ({ proc_exemplo with memoria :=
              ⟨fun e => if e = (instr_sw_exemplo.immediate.getD 0) &&& 0xFFFF
                        then 9 &&& 0xFFFFFFFF else proc_exemplo.memoria.mem e⟩ },
        none) :=
  ⟨lw_sw_endereco_efetivo.1 proc_exemplo instr_lw_exemplo _ none none
      (by decide) rfl rfl,
    lw_sw_endereco_efetivo.2 proc_exemplo instr_sw_exemplo _ none none 2 9
      (by decide) rfl rfl rfl rfl⟩

/-! ### C1: step on the HALT sentinel -/

/-- C1: for every non-halted processor state whose memory word at PC is
the all-ones HALT sentinel, the step sets halted to true and leaves PC,
every register, every memory word and the flags unchanged from their
values before the fetch of the HALT word, and a further step on the
halted state executes nothing. -/
lemma except_bind_ok {α β : Type} (a : α) (f : α → Except String β) :
    (Except.ok a).bind f = f a := rfl

lemma stage_id_halt_geral (u : Processor) (hu : u.ir = 0xFFFFFFFF) :
    stage_id u = .ok ({ opcode := 0xFFFFFFFF, type := .HALT },
      { sinais_padrao with halt := true, pc_src := .halt }, none, none) := by
  have h2 : decodificar 0xFFFFFFFF =
      .ok { opcode := 0xFFFFFFFF, type := .HALT } := rfl
  unfold stage_id
  rw [hu, h2]
  rfl

theorem passo_halt_congela (s : Processor) (hrun : s.halted = false)
    (hmem : s.memoria.ler s.pc = .ok 0xFFFFFFFF) :
    ∃ t, passo s = .ok t ∧ t.halted = true ∧ t.pc = s.pc ∧
      t.registradores = s.registradores ∧ t.memoria = s.memoria ∧
      t.flags = s.flags ∧ passo t = .ok t := by
  refine ⟨{ s with
            ir := 0xFFFFFFFF
            halted := true
            ciclos := s.ciclos + 1
            instrucoes := s.instrucoes + 1 }, ?_, rfl, rfl, rfl, rfl, rfl, ?_⟩
  · have hif : stage_if s =
        .ok ({ s with ir := 0xFFFFFFFF, pc := (s.pc + 1) &&& 0xFFFF },
          0xFFFFFFFF) := by
      unfold stage_if
      rw [hmem]
    unfold passo
    rw [hrun, if_neg Bool.false_ne_true, hif, except_bind_ok]
    dsimp only
    rw [stage_id_halt_geral _ rfl, except_bind_ok]
    dsimp only
    rfl
  · simp [passo]

/-- C1 witness: the theorem applied at a concrete state whose memory
holds the HALT sentinel everywhere. -/
def proc_halt_exemplo : Processor :=
  { memoria := ⟨fun _ => 0xFFFFFFFF⟩
    registradores := ⟨fun _ => 0⟩
    flags := Flags.init
    pc := 0
    ir := 0
    halted := false
    ciclos := 0
    instrucoes := 0 }

theorem passo_halt_congela_witness :
    ∃ t, passo proc_halt_exemplo = .ok t ∧ t.halted = true ∧
      t.pc = proc_halt_exemplo.pc ∧
      t.registradores = proc_halt_exemplo.registradores ∧
      t.memoria = proc_halt_exemplo.memoria ∧
      t.flags = proc_halt_exemplo.flags ∧ passo t = .ok t :=
  passo_halt_congela proc_halt_exemplo rfl rfl

end UflaRisc
